import Mathlib

/-!
Verification development for the Real-Time Poll Rooms server.

The JavaScript server code (routes, anti-abuse utilities, database helpers
and the Socket.io handlers) is shallowly embedded below.  JavaScript numbers
that flow through the vote pipeline are modelled as rationals: the pipeline
only compares them and stores them, and SQLite keeps a non-integral REAL
value distinct from every INTEGER, so exact rational arithmetic captures the
behaviour of the finite doubles the server actually sees.  Request bodies
arrive untyped, so body fields are modelled by a small JavaScript value type
with the truthiness rules the code relies on.
-/

/-- A JavaScript value as it can appear in a parsed JSON request body:
`undef` for a missing field, strings, (finite) numbers and arrays. -/
inductive JsVal where
  | undef : JsVal
  | str : String → JsVal
  | num : ℚ → JsVal
  | arr : List JsVal → JsVal
deriving Repr

/-- JavaScript truthiness for the values above: `undefined`, `""` and `0`
are falsy; arrays are always truthy. -/
def JsVal.truthy : JsVal → Bool
  | .undef => false
  | .str s => s ≠ ""
  | .num q => q ≠ 0
  | .arr _ => true

/-- `typeof v === "string"`. -/
def JsVal.isStr : JsVal → Bool
  | .str _ => true
  | _ => false

/-- `typeof v === "number"`. -/
def JsVal.isNum : JsVal → Bool
  | .num _ => true
  | _ => false

/-- The string payload of a value known to be a string. -/
def JsVal.strVal : JsVal → String
  | .str s => s
  | _ => ""

/-- The numeric payload of a value known to be a number. -/
def JsVal.numVal : JsVal → ℚ
  | .num q => q
  | _ => 0

/-- Transport-level metadata of an inbound request, as read by
`getClientIp` in `src/server/utils/antiAbuse.js`: the two proxy headers and
the two peer-address accessors.  `none` models an absent header. -/
structure HttpMeta where
  xForwardedFor : Option String
  xRealIp : Option String
  connectionRemoteAddress : Option String
  socketRemoteAddress : Option String
deriving DecidableEq, Repr

/-- JavaScript `String.prototype.trim`: strip whitespace from both ends.
Written by structural recursion over the character list so that concrete
instances evaluate inside the kernel. -/
def jsTrim (s : String) : String :=
  ⟨((s.data.dropWhile Char.isWhitespace).reverse.dropWhile Char.isWhitespace).reverse⟩

/-- JavaScript `String.prototype.replace` with a global single-character
pattern: every occurrence of `target` becomes `replacement`. -/
def jsReplaceChar (s : String) (target : Char) (replacement : String) : String :=
  ⟨s.data.flatMap (fun c => if c = target then replacement.data else [c])⟩

/-- JavaScript `s.split(",")[0]`: the characters before the first comma
(the whole string when there is none). -/
def firstCommaField (s : String) : String :=
  ⟨s.data.takeWhile (fun c => c ≠ ',')⟩

/-- JavaScript `String.prototype.substring(0, n)`. -/
def jsTake (s : String) (n : ℕ) : String :=
  ⟨s.data.take n⟩

/-- JavaScript truthiness of a possibly-absent header value: present and
non-empty. -/
def headerTruthy : Option String → Bool
  | some s => s ≠ ""
  | none => false

/-- JavaScript `a || b` for a possibly-absent string `a`. -/
def jsOrElse (a : Option String) (b : String) : String :=
  match a with
  | some s => if s = "" then b else s
  | none => b

/-- Embedding of `getClientIp` (antiAbuse.js): first hop of the
`x-forwarded-for` chain when that header is truthy, else the `x-real-ip`
header when truthy, else `connection.remoteAddress || socket.remoteAddress
|| "unknown"`. -/
def getClientIp (req : HttpMeta) : String :=
  if headerTruthy req.xForwardedFor then
    jsTrim (firstCommaField (req.xForwardedFor.getD ""))
  else if headerTruthy req.xRealIp then
    req.xRealIp.getD ""
  else
    jsOrElse req.connectionRemoteAddress
      (jsOrElse req.socketRemoteAddress "unknown")

/-- Embedding of `validateVoteData` (antiAbuse.js).  Returns the error
string produced by the first failing shape check, or `none` when the data
is valid.  Note the option-index check is only `typeof optionIndex !==
"number" || optionIndex < 0`: integrality is never required. -/
def validateVoteData (pollId optionIndex fingerprint : JsVal) : Option String :=
  if !(pollId.truthy && pollId.isStr) then some "Invalid poll ID"
  else if !(optionIndex.isNum && decide (0 ≤ optionIndex.numVal)) then
    some "Invalid option index"
  else if !(fingerprint.truthy && fingerprint.isStr) then some "Invalid fingerprint"
  else none

/-- Embedding of `sanitizeInput` (antiAbuse.js): entity-escape the five
special characters, trim, and truncate to 500 characters.  Non-strings map
to the empty string. -/
def sanitizeInput (v : JsVal) : String :=
  match v with
  | .str s =>
      jsTake (jsTrim (jsReplaceChar (jsReplaceChar (jsReplaceChar (jsReplaceChar
        (jsReplaceChar s '<' "&lt;") '>' "&gt;") '"' "&quot;") '\x27' "&#x27;") '/' "&#x2F;")) 500
  | _ => ""

/-- One iteration step of the option loop inside `validatePollData`:
the first error among options numbered from `i`, if any. -/
def checkOptions : List JsVal → ℕ → Option String
  | [], _ => none
  | o :: rest, i =>
    if !(o.truthy && o.isStr && decide (0 < (jsTrim o.strVal).length)) then
      some ("Option " ++ toString (i + 1) ++ " is invalid")
    else if 200 < o.strVal.length then
      some ("Option " ++ toString (i + 1) ++ " is too long (max 200 characters)")
    else checkOptions rest (i + 1)

/-- Embedding of `validatePollData` (antiAbuse.js): shape-checks the poll
creation body and, on success, returns the sanitized question and options. -/
def validatePollData (question options : JsVal) :
    Except String (String × List String) :=
  if !(question.truthy && question.isStr && decide (0 < (jsTrim question.strVal).length)) then
    .error "Question is required"
  else if 500 < question.strVal.length then
    .error "Question is too long (max 500 characters)"
  else
    match options with
    | .arr opts =>
      if opts.length < 2 then .error "At least 2 options are required"
      else if 10 < opts.length then .error "Maximum 10 options allowed"
      else
        match checkOptions opts 0 with
        | some e => .error e
        | none => .ok (sanitizeInput question, opts.map sanitizeInput)
    | _ => .error "Options must be an array"

/-- The `RATE_LIMITS.VOTES_PER_IP_PER_POLL` constant (antiAbuse.js). -/
def VOTES_PER_IP_PER_POLL : ℕ := 1

/-- The `RATE_LIMITS.VOTE_RATE_WINDOW_MS` constant (antiAbuse.js):
five minutes in milliseconds. -/
def VOTE_RATE_WINDOW_MS : ℤ := 5 * 60 * 1000

/-- The custom nanoid alphabet of `pollGenerator.js` (no `0`, `O`, `I`, `l`). -/
def pollIdAlphabet : List Char :=
  "123456789ABCDEFGHJKLMNPQRSTUVWXYZabcdefghijkmnopqrstuvwxyz".toList

/-- Embedding of `isValidPollId` (pollGenerator.js): a truthy string of
exactly eight characters drawn from the custom alphabet. -/
def isValidPollId (v : JsVal) : Bool :=
  match v with
  | .str s => s ≠ "" && s.length = 8 && s.toList.all (pollIdAlphabet.contains ·)
  | _ => false

/-- A row of the `votes` table (database.js schema).  The `option_index`
column has INTEGER affinity, but SQLite stores a non-integral REAL value
unchanged, so the field is a rational like the JavaScript number that was
bound.  The autoincrement id is immaterial to the claims and omitted; rows
are kept in insertion order. -/
structure VoteRow where
  poll_id : String
  option_index : ℚ
  ip_address : String
  fingerprint : String
  voted_at : ℤ
deriving DecidableEq, Repr

/-- A row of the `polls` table (database.js schema).  The `options` column
stores a JSON array of strings; it is modelled parsed. -/
structure PollRow where
  id : String
  question : String
  options : List String
  created_at : ℤ
  vote_count : ℕ
deriving DecidableEq, Repr

/-- The durable store: the two tables of `database.js`. -/
structure DB where
  polls : List PollRow
  votes : List VoteRow
deriving DecidableEq, Repr

/-- The `SELECT * FROM polls WHERE id = ?` statement. -/
def findPollRow (db : DB) (pollId : String) : Option PollRow :=
  db.polls.find? (fun p => p.id == pollId)

/-- The rows of `votes` belonging to one poll. -/
def votesFor (db : DB) (pollId : String) : List VoteRow :=
  db.votes.filter (fun v => v.poll_id == pollId)

/-- The `getVotesByPoll` statement: `SELECT option_index, COUNT(*) ...
GROUP BY option_index`, one `(option_index, count)` row per distinct
stored index value. -/
def voteGroups (votes : List VoteRow) : List (ℚ × ℕ) :=
  ((votes.map (fun v => v.option_index)).dedup).map
    (fun q => (q, (votes.filter (fun v => v.option_index == q)).length))

/-- One iteration of the `votes.forEach` loop in `dbHelpers.getPoll`:
`if (vote.option_index < poll.results.length) poll.results[vote.option_index]
= vote.count`.  A JavaScript array assignment writes an element only when
the key is a non-negative integer index; any other numeric key creates an
ordinary property that the later `reduce` over the array never sees. -/
def applyGroup (results : List ℕ) (g : ℚ × ℕ) : List ℕ :=
  if g.1 < (results.length : ℚ) then
    if g.1.den = 1 ∧ 0 ≤ g.1.num then results.set g.1.num.toNat g.2
    else results
  else results

/-- The tally computation of `dbHelpers.getPoll`: start from one zero per
option and fold the grouped vote counts through the loop above. -/
def computeResults (options : List String) (votes : List VoteRow) : List ℕ :=
  (voteGroups votes).foldl applyGroup (options.map (fun _ => 0))

/-- The poll object `dbHelpers.getPoll` returns: the row joined with the
derived `results` array. -/
structure PollView where
  id : String
  question : String
  options : List String
  created_at : ℤ
  vote_count : ℕ
  results : List ℕ
deriving DecidableEq, Repr

/-- Embedding of `dbHelpers.getPoll`: `null` for an unknown id, otherwise
the row with options parsed and per-option results attached. -/
def getPoll (db : DB) (pollId : String) : Option PollView :=
  match findPollRow db pollId with
  | none => none
  | some p =>
      some { id := p.id, question := p.question, options := p.options,
             created_at := p.created_at, vote_count := p.vote_count,
             results := computeResults p.options (votesFor db pollId) }

/-- Embedding of `dbHelpers.hasVotedByIP`: `COUNT(*) > 0` over votes of the
poll with this exact address. -/
def hasVotedByIP (db : DB) (pollId ip : String) : Bool :=
  0 < (db.votes.filter (fun v => v.poll_id == pollId && v.ip_address == ip)).length

/-- Embedding of `dbHelpers.hasVotedByFingerprint`: `COUNT(*) > 0` over
votes of the poll with this exact fingerprint. -/
def hasVotedByFingerprint (db : DB) (pollId fp : String) : Bool :=
  0 < (db.votes.filter (fun v => v.poll_id == pollId && v.fingerprint == fp)).length

/-- Embedding of `dbHelpers.getRecentVoteCount`: votes of the poll from
this address with `voted_at > now - timeWindowMs`. -/
def getRecentVoteCount (db : DB) (pollId ip : String) (timeWindowMs : ℤ) (now : ℤ) : ℕ :=
  (db.votes.filter (fun v =>
    v.poll_id == pollId && v.ip_address == ip && decide (now - timeWindowMs < v.voted_at))).length

/-- Embedding of `dbHelpers.addVote`: one transaction inserting the vote
row and running `UPDATE polls SET vote_count = vote_count + 1 WHERE id = ?`.
better-sqlite3 transactions are synchronous, so the transaction is a single
step of the model. -/
def addVote (db : DB) (pollId : String) (optionIndex : ℚ) (ip fp : String) (now : ℤ) : DB :=
  { polls := db.polls.map (fun p =>
      if p.id == pollId then { p with vote_count := p.vote_count + 1 } else p),
    votes := db.votes ++ [{ poll_id := pollId, option_index := optionIndex,
                            ip_address := ip, fingerprint := fp, voted_at := now }] }

/-- The body of a `POST /api/votes` request, fields possibly missing or of
the wrong type. -/
structure VoteReqBody where
  pollId : JsVal
  optionIndex : JsVal
  fingerprint : JsVal

/-- The response of the `POST /api/votes` pipeline, one constructor per
distinct JSON response the route can produce.  Both duplicate checks answer
403 with the same message, embedded as the single `alreadyVoted`. -/
inductive VoteResp where
  | invalidPollId (err : String)
  | malformed (err : String)
  | pollNotFound
  | invalidOption
  | alreadyVoted
  | rateLimited
  | serverError
  | success (results : List ℕ) (total : ℕ)
deriving DecidableEq, Repr

/-- Embedding of the `POST /api/votes` pipeline (voteRoutes.js together
with the `validatePollId` middleware): shape validation, client address
extraction, poll lookup, the option-index bound, the two duplicate checks,
the velocity check, then the transactional commit followed by a fresh
`getPoll` read that feeds the synchronous response. -/
def voteRoute (db : DB) (body : VoteReqBody) (meta : HttpMeta) (now : ℤ) : VoteResp × DB :=
  if !body.pollId.truthy then (.invalidPollId "Poll ID is required", db)
  else if !isValidPollId body.pollId then (.invalidPollId "Invalid poll ID format", db)
  else
    match validateVoteData body.pollId body.optionIndex body.fingerprint with
    | some err => (.malformed err, db)
    | none =>
      match getPoll db body.pollId.strVal with
      | none => (.pollNotFound, db)
      | some poll =>
        if (poll.options.length : ℚ) ≤ body.optionIndex.numVal then (.invalidOption, db)
        else if hasVotedByIP db body.pollId.strVal (getClientIp meta) then (.alreadyVoted, db)
        else if hasVotedByFingerprint db body.pollId.strVal body.fingerprint.strVal then
          (.alreadyVoted, db)
        else if VOTES_PER_IP_PER_POLL ≤
            getRecentVoteCount db body.pollId.strVal (getClientIp meta) VOTE_RATE_WINDOW_MS now then
          (.rateLimited, db)
        else
          match getPoll (addVote db body.pollId.strVal body.optionIndex.numVal
              (getClientIp meta) body.fingerprint.strVal now) body.pollId.strVal with
          | some updated =>
              (.success updated.results updated.results.sum,
               addVote db body.pollId.strVal body.optionIndex.numVal
                 (getClientIp meta) body.fingerprint.strVal now)
          | none =>
              (.serverError,
               addVote db body.pollId.strVal body.optionIndex.numVal
                 (getClientIp meta) body.fingerprint.strVal now)

/-- The response of `POST /api/polls`. -/
inductive CreateResp where
  | badRequest (err : String)
  | serverError
  | created (id : String) (question : String) (options : List String)
deriving DecidableEq, Repr

/-- Embedding of the `POST /api/polls` pipeline (pollRoutes.js): validate
and sanitize, then insert the poll row with `vote_count` 0.  `freshId` is
the nanoid the route generates; a collision with an existing primary key
makes the insert throw, which the route maps to a 500 with no mutation. -/
def createPollRoute (db : DB) (freshId : String) (now : ℤ) (question options : JsVal) :
    CreateResp × DB :=
  match validatePollData question options with
  | .error e => (.badRequest e, db)
  | .ok (q, opts) =>
      if db.polls.any (fun p => p.id == freshId) then (.serverError, db)
      else
        (.created freshId q opts,
         { db with polls := db.polls ++
            [{ id := freshId, question := q, options := opts, created_at := now, vote_count := 0 }] })

/-- The full snapshot the `join-poll` handler emits as `poll-data`
(server index.js). -/
structure Snapshot where
  id : String
  question : String
  options : List String
  results : List ℕ
  totalVotes : ℕ
deriving DecidableEq, Repr

/-- The payload of a `poll-updated` broadcast (server index.js). -/
structure UpdatePayload where
  results : List ℕ
  totalVotes : ℕ
deriving DecidableEq, Repr

/-- The Socket.io room registry: one `(room, socket id)` pair per
membership.  Rooms are sets, so joining is idempotent. -/
def joinRoom (rooms : List (String × ℕ)) (room : String) (sock : ℕ) :
    List (String × ℕ) :=
  if (room, sock) ∈ rooms then rooms else rooms ++ [(room, sock)]

/-- The sockets currently in a room. -/
def roomMembers (rooms : List (String × ℕ)) (room : String) : List ℕ :=
  (rooms.filter (fun m => m.1 == room)).map (fun m => m.2)

/-- Embedding of the `join-poll` handler (server index.js): a falsy pollId
returns immediately; otherwise the socket joins the `poll-` room and, when
`getPoll` finds the poll, it alone is sent the `poll-data` snapshot.  The
result is the new registry and the snapshot sent, if any. -/
def joinPollHandler (db : DB) (rooms : List (String × ℕ)) (sock : ℕ) (pollId : String) :
    List (String × ℕ) × Option Snapshot :=
  if pollId = "" then (rooms, none)
  else
    let rooms2 := joinRoom rooms ("poll-" ++ pollId) sock
    match getPoll db pollId with
    | some p => (rooms2, some { id := p.id, question := p.question, options := p.options,
                                results := p.results, totalVotes := p.results.sum })
    | none => (rooms2, none)

/-- Embedding of the `vote-submitted` handler (server index.js): on a
truthy pollId naming an existing poll, read the poll afresh and emit one
`poll-updated` broadcast to the current members of its room; otherwise emit
nothing.  The result is the recipient list and payload of that broadcast,
if any. -/
def voteSubmittedHandler (db : DB) (rooms : List (String × ℕ)) (pollId : String) :
    Option (List ℕ × UpdatePayload) :=
  if pollId = "" then none
  else
    match getPoll db pollId with
    | some p => some (roomMembers rooms ("poll-" ++ pollId),
                      { results := p.results, totalVotes := p.results.sum })
    | none => none

/-- The store states reachable through the two mutating HTTP pipelines,
starting from the empty database. -/
inductive Reachable : DB → Prop where
  | empty : Reachable { polls := [], votes := [] }
  | create (db : DB) (freshId : String) (now : ℤ) (question options : JsVal) :
      Reachable db → Reachable (createPollRoute db freshId now question options).2
  | vote (db : DB) (body : VoteReqBody) (meta : HttpMeta) (now : ℤ) :
      Reachable db → Reachable (voteRoute db body meta now).2

/-- Modelled from the spec (§6): the stated limits on a poll creation
request, for comparison with `validatePollData` — the question a non-empty
string of at most 500 characters, the options an array of 2 to 10 entries,
each a non-empty string of at most 200 characters. -/
def meetsPollLimits (question options : JsVal) : Bool :=
  match question, options with
  | .str s, .arr opts =>
      s ≠ "" && s.length ≤ 500 && 2 ≤ opts.length && opts.length ≤ 10 &&
      opts.all (fun o => match o with
        | .str t => t ≠ "" && t.length ≤ 200
        | _ => false)
  | _, _ => false

/-- Concrete scenario data: a two-option poll created through the route. -/
def db0 : DB := { polls := [], votes := [] }

/-- The store after creating poll `A1B2C3D4` with options Red and Blue. -/
def dbWithPoll : DB :=
  (createPollRoute db0 "A1B2C3D4" 0 (.str "Favorite color?")
    (.arr [.str "Red", .str "Blue"])).2

/-- A well-formed vote body for option 0 from fingerprint fp1. -/
def bodyA : VoteReqBody :=
  { pollId := .str "A1B2C3D4", optionIndex := .num 0, fingerprint := .str "fp1" }

/-- A well-formed vote body for option 1 from fingerprint fp2. -/
def bodyB : VoteReqBody :=
  { pollId := .str "A1B2C3D4", optionIndex := .num 1, fingerprint := .str "fp2" }

/-- A vote body whose option index is the fractional number one half. -/
def bodyFrac : VoteReqBody :=
  { pollId := .str "A1B2C3D4", optionIndex := .num (mkRat 1 2), fingerprint := .str "fp3" }

/-- Transport metadata carrying address 1.2.3.4. -/
def metaA : HttpMeta :=
  { xForwardedFor := some "1.2.3.4", xRealIp := none,
    connectionRemoteAddress := none, socketRemoteAddress := none }

/-- Transport metadata carrying address 5.6.7.8. -/
def metaB : HttpMeta :=
  { xForwardedFor := some "5.6.7.8", xRealIp := none,
    connectionRemoteAddress := none, socketRemoteAddress := none }

/-- Transport metadata carrying address 9.9.9.9. -/
def metaC : HttpMeta :=
  { xForwardedFor := some "9.9.9.9", xRealIp := none,
    connectionRemoteAddress := none, socketRemoteAddress := none }

/-- The store after voter A's accepted vote for option 0. -/
def dbAfterA : DB := (voteRoute dbWithPoll bodyA metaA 100).2

/-- The store after voter B's accepted vote for option 1 on top of A's. -/
def dbAfterAB : DB := (voteRoute dbAfterA bodyB metaB 200).2

/-- The store after an accepted vote with fractional option index one half. -/
def dbAfterFrac : DB := (voteRoute dbWithPoll bodyFrac metaC 100).2

/-- Whether a vote response is the success response. -/
def isSuccess : VoteResp → Bool
  | .success _ _ => true
  | _ => false

/-- Whether a poll creation response is a 400 validation error. -/
def isBadRequest : CreateResp → Bool
  | .badRequest _ => true
  | _ => false

lemma recent_le_ip_count (db : DB) (pid ip : String) (w now : ℤ) :
    getRecentVoteCount db pid ip w now ≤
      (db.votes.filter (fun v => v.poll_id == pid && v.ip_address == ip)).length := by
  unfold getRecentVoteCount
  refine List.Sublist.length_le (List.monotone_filter_right _ ?_)
  intro v hv
  simp only [Bool.and_eq_true] at hv
  simp [hv.1.1, hv.1.2]

lemma hasVotedByIP_false_recent_zero (db : DB) (pid ip : String) (w now : ℤ)
    (h : hasVotedByIP db pid ip = false) : getRecentVoteCount db pid ip w now = 0 := by
  unfold hasVotedByIP at h
  have h0 : (db.votes.filter (fun v => v.poll_id == pid && v.ip_address == ip)).length = 0 := by
    simpa using h
  have := recent_le_ip_count db pid ip w now
  omega

lemma findPollRow_addVote (db : DB) (pid pid2 : String) (oi : ℚ) (ip fp : String) (t : ℤ) :
    findPollRow (addVote db pid2 oi ip fp t) pid =
      (findPollRow db pid).map (fun p =>
        if p.id == pid2 then { p with vote_count := p.vote_count + 1 } else p) := by
  unfold findPollRow addVote
  have hpred : ((fun p : PollRow => p.id == pid) ∘ fun p =>
      if p.id == pid2 then { p with vote_count := p.vote_count + 1 } else p) =
      (fun p : PollRow => p.id == pid) := by
    funext p
    by_cases h : (p.id == pid2) = true <;> simp [Function.comp, h]
  rw [List.find?_map, hpred]

lemma getPoll_addVote_some (db : DB) (pid pid2 : String) (oi : ℚ) (ip fp : String) (t : ℤ)
    (poll : PollView) (hp : getPoll db pid = some poll) :
    ∃ q, getPoll (addVote db pid2 oi ip fp t) pid = some q := by
  unfold getPoll at hp ⊢
  rw [findPollRow_addVote]
  cases h : findPollRow db pid with
  | none => rw [h] at hp; exact absurd hp (by simp)
  | some p => rw [h] at hp; exact ⟨_, rfl⟩

lemma voteRoute_success_or_unchanged (db : DB) (body : VoteReqBody) (meta : HttpMeta) (now : ℤ) :
    isSuccess (voteRoute db body meta now).1 = true ∨ (voteRoute db body meta now).2 = db := by
  unfold voteRoute
  split
  · exact Or.inr rfl
  split
  · exact Or.inr rfl
  split
  · exact Or.inr rfl
  split
  · exact Or.inr rfl
  rename_i poll hpoll
  split
  · exact Or.inr rfl
  split
  · exact Or.inr rfl
  split
  · exact Or.inr rfl
  split
  · exact Or.inr rfl
  split
  · exact Or.inl rfl
  rename_i hnone
  obtain ⟨q, hq⟩ := getPoll_addVote_some db body.pollId.strVal body.pollId.strVal
    body.optionIndex.numVal (getClientIp meta) body.fingerprint.strVal now poll hpoll
  rw [hq] at hnone
  exact absurd hnone (by simp)

lemma voteRoute_eq_cascade (db : DB) (body : VoteReqBody) (meta : HttpMeta) (now : ℤ)
    (poll : PollView)
    (hpid : body.pollId.truthy = true)
    (hfmt : isValidPollId body.pollId = true)
    (hval : validateVoteData body.pollId body.optionIndex body.fingerprint = none)
    (hpoll : getPoll db body.pollId.strVal = some poll) :
    voteRoute db body meta now =
      (if (poll.options.length : ℚ) ≤ body.optionIndex.numVal then (VoteResp.invalidOption, db)
       else if hasVotedByIP db body.pollId.strVal (getClientIp meta) then
         (VoteResp.alreadyVoted, db)
       else if hasVotedByFingerprint db body.pollId.strVal body.fingerprint.strVal then
         (VoteResp.alreadyVoted, db)
       else if VOTES_PER_IP_PER_POLL ≤ getRecentVoteCount db body.pollId.strVal
           (getClientIp meta) VOTE_RATE_WINDOW_MS now then
         (VoteResp.rateLimited, db)
       else
         match getPoll (addVote db body.pollId.strVal body.optionIndex.numVal
             (getClientIp meta) body.fingerprint.strVal now) body.pollId.strVal with
         | some updated =>
             (VoteResp.success updated.results updated.results.sum,
              addVote db body.pollId.strVal body.optionIndex.numVal
                (getClientIp meta) body.fingerprint.strVal now)
         | none =>
             (VoteResp.serverError,
              addVote db body.pollId.strVal body.optionIndex.numVal
                (getClientIp meta) body.fingerprint.strVal now)) := by
  unfold voteRoute
  rw [hpid, hfmt, hval, hpoll]
  simp only [Bool.not_true, Bool.false_eq_true, if_false]

lemma voteRoute_success_read (db : DB) (body : VoteReqBody) (meta : HttpMeta) (now : ℤ)
    (res : List ℕ) (tot : ℕ) :
    (voteRoute db body meta now).1 = .success res tot →
      (getPoll (voteRoute db body meta now).2 body.pollId.strVal).map (fun p => p.results) =
        some res := by
  unfold voteRoute
  split
  · intro h; exact absurd h (by simp)
  split
  · intro h; exact absurd h (by simp)
  split
  · intro h; exact absurd h (by simp)
  split
  · intro h; exact absurd h (by simp)
  split
  · intro h; exact absurd h (by simp)
  split
  · intro h; exact absurd h (by simp)
  split
  · intro h; exact absurd h (by simp)
  split
  · intro h; exact absurd h (by simp)
  split
  · rename_i updated hq
    intro h
    simp only at h ⊢
    rw [hq]
    injection h with h1 h2
    simp [h1]
  · intro h; exact absurd h (by simp)

lemma checkOptions_none (os : List JsVal) (i : ℕ) (h : checkOptions os i = none) :
    ∀ o ∈ os, (o.truthy && o.isStr) = true ∧ o.strVal.length ≤ 200 := by
  induction os generalizing i with
  | nil => intro o ho; cases ho
  | cons a rest ih =>
    intro o ho
    unfold checkOptions at h
    by_cases h1 : (a.truthy && a.isStr && decide (0 < (jsTrim a.strVal).length)) = true
    · rw [h1] at h
      simp only [Bool.not_true, if_false] at h
      by_cases h2 : 200 < a.strVal.length
      · rw [if_pos h2] at h; cases h
      · rw [if_neg h2] at h
        cases ho with
        | head => exact ⟨by simp_all, by omega⟩
        | tail _ hm => exact ih (i + 1) h o hm
    · simp only [h1] at h
      cases h

lemma mem_joinRoom (rooms : List (String × ℕ)) (room : String) (sock : ℕ) :
    (room, sock) ∈ joinRoom rooms room sock := by
  unfold joinRoom
  split
  · assumption
  · simp

/-- Claim C9: in sequential execution the velocity rejection branch is
unreachable — for every store state and request, the vote pipeline never
answers 429, because passing the duplicate-by-address check means no vote
for this poll from this address exists at all, so the windowed count is
zero and stays below the limit of one. -/
theorem rate_limited_unreachable (db : DB) (body : VoteReqBody) (meta : HttpMeta) (now : ℤ) :
    (voteRoute db body meta now).1 ≠ .rateLimited := by
  unfold voteRoute
  split
  · simp
  split
  · simp
  split
  · simp
  split
  · simp
  split
  · simp
  split
  · simp
  split
  · simp
  split
  · rename_i hip hfp hrate
    exfalso
    have h0 := hasVotedByIP_false_recent_zero db body.pollId.strVal (getClientIp meta)
      VOTE_RATE_WINDOW_MS now (by simpa using hip)
    rw [h0] at hrate
    exact absurd hrate (by decide)
  split
  · simp
  · simp

/-- Claim C5: a rejected vote attempt leaves the store untouched — whenever
the pipeline's response is not the success response, the resulting store
equals the original one, so the tally read afterwards is unchanged and
repeated rejected attempts change nothing. -/
theorem reject_leaves_state_unchanged (db : DB) (body : VoteReqBody) (meta : HttpMeta)
    (now : ℤ) (h : isSuccess (voteRoute db body meta now).1 = false) :
    (voteRoute db body meta now).2 = db :=
  (voteRoute_success_or_unchanged db body meta now).resolve_left (by simp [h])

/-- Witness for C5: voter A's repeat attempt is rejected and the store after
it equals the store before. -/
theorem reject_leaves_state_unchanged_witness :
    isSuccess (voteRoute dbAfterA bodyA metaA 300).1 = false ∧
    (voteRoute dbAfterA bodyA metaA 300).2 = dbAfterA :=
  ⟨by decide, reject_leaves_state_unchanged dbAfterA bodyA metaA 300 (by decide)⟩

/-- Claim C1: for a vote request that reaches the admission stage (shape
validation passed, poll found), the four admission checks run in the order
structural bound, duplicate-by-address, duplicate-by-fingerprint, velocity;
the first failing check alone determines the response, which carries that
check's rejection (invalid option / already voted / rate limited), and when
all four pass the vote is accepted. -/
theorem admission_checks_ordered (db : DB) (body : VoteReqBody) (meta : HttpMeta) (now : ℤ)
    (poll : PollView)
    (hpid : body.pollId.truthy = true)
    (hfmt : isValidPollId body.pollId = true)
    (hval : validateVoteData body.pollId body.optionIndex body.fingerprint = none)
    (hpoll : getPoll db body.pollId.strVal = some poll) :
    ((poll.options.length : ℚ) ≤ body.optionIndex.numVal →
        (voteRoute db body meta now).1 = .invalidOption) ∧
    (body.optionIndex.numVal < (poll.options.length : ℚ) →
      hasVotedByIP db body.pollId.strVal (getClientIp meta) = true →
        (voteRoute db body meta now).1 = .alreadyVoted) ∧
    (body.optionIndex.numVal < (poll.options.length : ℚ) →
      hasVotedByIP db body.pollId.strVal (getClientIp meta) = false →
      hasVotedByFingerprint db body.pollId.strVal body.fingerprint.strVal = true →
        (voteRoute db body meta now).1 = .alreadyVoted) ∧
    (body.optionIndex.numVal < (poll.options.length : ℚ) →
      hasVotedByIP db body.pollId.strVal (getClientIp meta) = false →
      hasVotedByFingerprint db body.pollId.strVal body.fingerprint.strVal = false →
      VOTES_PER_IP_PER_POLL ≤ getRecentVoteCount db body.pollId.strVal
        (getClientIp meta) VOTE_RATE_WINDOW_MS now →
        (voteRoute db body meta now).1 = .rateLimited) ∧
    (body.optionIndex.numVal < (poll.options.length : ℚ) →
      hasVotedByIP db body.pollId.strVal (getClientIp meta) = false →
      hasVotedByFingerprint db body.pollId.strVal body.fingerprint.strVal = false →
      getRecentVoteCount db body.pollId.strVal (getClientIp meta)
        VOTE_RATE_WINDOW_MS now < VOTES_PER_IP_PER_POLL →
        isSuccess (voteRoute db body meta now).1 = true) := by
  have hc := voteRoute_eq_cascade db body meta now poll hpid hfmt hval hpoll
  refine ⟨?_, ?_, ?_, ?_, ?_⟩
  · intro h1
    rw [hc, if_pos h1]
  · intro h1 h2
    rw [hc, if_neg (not_le.mpr h1), if_pos h2]
  · intro h1 h2 h3
    rw [hc, if_neg (not_le.mpr h1), if_neg (by simp [h2]), if_pos h3]
  · intro h1 h2 h3 h4
    rw [hc, if_neg (not_le.mpr h1), if_neg (by simp [h2]), if_neg (by simp [h3]), if_pos h4]
  · intro h1 h2 h3 h4
    rw [hc, if_neg (not_le.mpr h1), if_neg (by simp [h2]), if_neg (by simp [h3]),
      if_neg (not_le.mpr h4)]
    obtain ⟨q, hq⟩ := getPoll_addVote_some db body.pollId.strVal body.pollId.strVal
      body.optionIndex.numVal (getClientIp meta) body.fingerprint.strVal now poll hpoll
    rw [hq]
    rfl

/-- A vote body naming option index 5 on the two-option poll. -/
def bodyOut : VoteReqBody :=
  { pollId := .str "A1B2C3D4", optionIndex := .num 5, fingerprint := .str "fp9" }

/-- Witness for C1: an out-of-range option index on the two-option poll is
answered with the invalid-option rejection. -/
theorem admission_checks_ordered_witness :
    (voteRoute dbWithPoll bodyOut metaA 300).1 = .invalidOption :=
  (admission_checks_ordered dbWithPoll bodyOut metaA 300
    { id := "A1B2C3D4", question := "Favorite color?", options := ["Red", "Blue"],
      created_at := 0, vote_count := 0, results := [0, 0] }
    (by decide) (by decide) (by decide) (by decide)).1 (by decide)

/-- Claim C2 (refuted, code bug): a reachable store state in which the sum
of the tally returned by getPoll is 0 while the poll holds one accepted
vote.  The vote with non-integral option index one half is admitted (see
C4) and committed, but the tally loop's array assignment at the fractional
key creates a plain object property the summed array never contains, so the
accepted vote is lost from the tally. -/
theorem tally_sum_mismatch_reachable :
    Reachable dbAfterFrac ∧
    (getPoll dbAfterFrac "A1B2C3D4").map (fun p => p.results.sum) = some 0 ∧
    (votesFor dbAfterFrac "A1B2C3D4").length = 1 :=
  ⟨Reachable.vote dbWithPoll bodyFrac metaC 100
    (Reachable.create db0 "A1B2C3D4" 0 (.str "Favorite color?")
      (.arr [.str "Red", .str "Blue"]) Reachable.empty),
   by decide, by decide⟩

/-- Claim C4 (refuted, code bug): a vote whose optionIndex is the
fractional number one half passes `validateVoteData` (which only requires a
number that is not negative), passes the route's upper-bound check, and is
committed — the response is even the success response, with a tally that
has already lost the vote — instead of being rejected as malformed with no
storage mutation. -/
theorem nonInteger_option_vote_accepted :
    validateVoteData bodyFrac.pollId bodyFrac.optionIndex bodyFrac.fingerprint = none ∧
    (voteRoute dbWithPoll bodyFrac metaC 100).1 = .success [0, 0] 0 ∧
    (voteRoute dbWithPoll bodyFrac metaC 100).2 ≠ dbWithPoll ∧
    (votesFor (voteRoute dbWithPoll bodyFrac metaC 100).2 "A1B2C3D4").length = 1 :=
  ⟨by decide, by decide, by decide, by decide⟩

/-- Counterexample to claim C3: voter A's accepted vote gets the
synchronous response tally `[1, 0]`, but the broadcast serving A's own
vote-submitted notification — delivered after B's vote commits — carries
the tally `[1, 1]` from a second, later read, so response and broadcast do
not come from one single post-commit read. -/
theorem broadcast_read_differs_from_response :
    (voteRoute dbWithPoll bodyA metaA 100).1 = .success [1, 0] 1 ∧
    (voteSubmittedHandler dbAfterAB [] "A1B2C3D4").map (fun b => b.2.results) ≠ some [1, 0] :=
  ⟨by decide, by decide⟩

/-- Claim C3 as amended: the server broadcasts once per client
vote-submitted notification (not per accepted vote); that broadcast goes to
the poll room's current members and carries a tally read from the store at
notification time, while the voter's synchronous response carries the
route's own post-commit read — two separate reads that agree only when no
other commit intervenes. -/
theorem broadcast_per_notification (db : DB) (rooms : List (String × ℕ)) (pollId : String)
    (hne : pollId ≠ "") :
    voteSubmittedHandler db rooms pollId =
      (getPoll db pollId).map (fun p =>
        (roomMembers rooms ("poll-" ++ pollId),
         ({ results := p.results, totalVotes := p.results.sum } : UpdatePayload))) ∧
    (∀ db2 body meta now res tot, (voteRoute db2 body meta now).1 = VoteResp.success res tot →
      (getPoll (voteRoute db2 body meta now).2 body.pollId.strVal).map (fun p => p.results) =
        some res) := by
  constructor
  · unfold voteSubmittedHandler
    rw [if_neg hne]
    cases getPoll db pollId <;> rfl
  · intro db2 body meta now res tot h
    exact voteRoute_success_read db2 body meta now res tot h

/-- Witness for the amended C3: at the concrete two-vote state the
notification for poll A1B2C3D4 produces exactly the broadcast with the
freshly read tally. -/
theorem broadcast_per_notification_witness :
    voteSubmittedHandler dbAfterAB [] "A1B2C3D4" =
      some ([], { results := [1, 1], totalVotes := 2 }) :=
  ((broadcast_per_notification dbAfterAB [] "A1B2C3D4" (by decide)).1).trans (by decide)

/-- Counterexample to claim C6: a join-poll subscribe call whose pollId
does not name an existing poll joins the room but is sent no resync
snapshot at all — the claim's "for every pollId" fails. -/
theorem join_unknown_poll_no_snapshot :
    (joinPollHandler dbWithPoll [] 7 "QQQQQQQQ").2 = none ∧
    ("poll-QQQQQQQQ", 7) ∈ (joinPollHandler dbWithPoll [] 7 "QQQQQQQQ").1 :=
  ⟨by decide, by decide⟩

/-- Claim C6 as amended: for every subscribe call whose truthy pollId names
an existing poll, the connection is registered in the poll's room and is
immediately sent the full snapshot (question, options, tally, total) read
from the committed store at subscribe time; for a falsy or unknown pollId
no snapshot is sent. -/
theorem join_existing_poll_snapshot (db : DB) (rooms : List (String × ℕ)) (sock : ℕ)
    (pollId : String) (p : PollView)
    (hne : pollId ≠ "") (hp : getPoll db pollId = some p) :
    joinPollHandler db rooms sock pollId =
      (joinRoom rooms ("poll-" ++ pollId) sock,
       some { id := p.id, question := p.question, options := p.options,
              results := p.results, totalVotes := p.results.sum }) ∧
    ("poll-" ++ pollId, sock) ∈ (joinPollHandler db rooms sock pollId).1 := by
  have h1 : joinPollHandler db rooms sock pollId =
      (joinRoom rooms ("poll-" ++ pollId) sock,
       some { id := p.id, question := p.question, options := p.options,
              results := p.results, totalVotes := p.results.sum }) := by
    unfold joinPollHandler
    rw [if_neg hne, hp]
  refine ⟨h1, ?_⟩
  rw [h1]
  exact mem_joinRoom rooms ("poll-" ++ pollId) sock

/-- Witness for the amended C6: subscribing to the freshly created poll
registers the socket and yields the snapshot of the committed state. -/
theorem join_existing_poll_snapshot_witness :
    joinPollHandler dbWithPoll [] 7 "A1B2C3D4" =
      ([("poll-A1B2C3D4", 7)],
       some { id := "A1B2C3D4", question := "Favorite color?", options := ["Red", "Blue"],
              results := [0, 0], totalVotes := 0 }) :=
  ((join_existing_poll_snapshot dbWithPoll [] 7 "A1B2C3D4"
    { id := "A1B2C3D4", question := "Favorite color?", options := ["Red", "Blue"],
      created_at := 0, vote_count := 0, results := [0, 0] }
    (by decide) (by decide)).1).trans (by decide)

/-- Claim C7: the identity extractor is a total pure function of the
request metadata that picks, in order of precedence, the first entry of the
forwarded-address chain, else the real-address header, else the direct peer
address (connection, then socket), else the sentinel "unknown". -/
theorem getClientIp_precedence (req : HttpMeta) :
    (∀ s, req.xForwardedFor = some s → s ≠ "" →
        getClientIp req = jsTrim (firstCommaField s)) ∧
    (headerTruthy req.xForwardedFor = false →
      ∀ s, req.xRealIp = some s → s ≠ "" → getClientIp req = s) ∧
    (headerTruthy req.xForwardedFor = false → headerTruthy req.xRealIp = false →
      ∀ s, req.connectionRemoteAddress = some s → s ≠ "" → getClientIp req = s) ∧
    (headerTruthy req.xForwardedFor = false → headerTruthy req.xRealIp = false →
      headerTruthy req.connectionRemoteAddress = false →
      ∀ s, req.socketRemoteAddress = some s → s ≠ "" → getClientIp req = s) ∧
    (headerTruthy req.xForwardedFor = false → headerTruthy req.xRealIp = false →
      headerTruthy req.connectionRemoteAddress = false →
      headerTruthy req.socketRemoteAddress = false → getClientIp req = "unknown") := by
  refine ⟨?_, ?_, ?_, ?_, ?_⟩
  · intro s hs hne
    unfold getClientIp
    rw [hs, if_pos (by simp [headerTruthy, hne])]
    simp
  · intro hf s hs hne
    unfold getClientIp
    rw [if_neg (by simp [hf]), hs, if_pos (by simp [headerTruthy, hne])]
    simp
  · intro hf hr s hs hne
    unfold getClientIp
    rw [if_neg (by simp [hf]), if_neg (by simp [hr]), hs]
    simp [jsOrElse, hne]
  · intro hf hr hc s hs hne
    unfold getClientIp
    rw [if_neg (by simp [hf]), if_neg (by simp [hr]), hs]
    cases hcc : req.connectionRemoteAddress with
    | none => simp [jsOrElse, hne]
    | some c =>
        have hc0 : c = "" := by
          rw [hcc] at hc
          simpa [headerTruthy] using hc
        simp [jsOrElse, hc0, hne]
  · intro hf hr hc hsk
    unfold getClientIp
    rw [if_neg (by simp [hf]), if_neg (by simp [hr])]
    cases hcc : req.connectionRemoteAddress with
    | none =>
        cases hss : req.socketRemoteAddress with
        | none => simp [jsOrElse]
        | some s2 =>
            have : s2 = "" := by rw [hss] at hsk; simpa [headerTruthy] using hsk
            simp [jsOrElse, this]
    | some c =>
        have hc0 : c = "" := by rw [hcc] at hc; simpa [headerTruthy] using hc
        cases hss : req.socketRemoteAddress with
        | none => simp [jsOrElse, hc0]
        | some s2 =>
            have : s2 = "" := by rw [hss] at hsk; simpa [headerTruthy] using hsk
            simp [jsOrElse, hc0, this]

/-- Witness for C7: the forwarded header wins and yields its first hop. -/
theorem getClientIp_precedence_witness : getClientIp metaA = "1.2.3.4" :=
  ((getClientIp_precedence metaA).1 "1.2.3.4" rfl (by decide)).trans (by decide)

lemma validatePollData_ok_limits (question options : JsVal) (q : String)
    (opts : List String) (h : validatePollData question options = .ok (q, opts)) :
    meetsPollLimits question options = true := by
  unfold validatePollData at h
  split at h
  · exact absurd h (by simp)
  split at h
  · exact absurd h (by simp)
  rename_i ha hb
  split at h
  · rename_i opts2
    split at h
    · exact absurd h (by simp)
    split at h
    · exact absurd h (by simp)
    rename_i hlen2 hlen10
    split at h
    · exact absurd h (by simp)
    rename_i hco
    have ha2 : (question.truthy && question.isStr &&
        decide (0 < (jsTrim question.strVal).length)) = true := by
      cases hx : (question.truthy && question.isStr &&
          decide (0 < (jsTrim question.strVal).length)) with
      | false => exact absurd (by simp [hx]) ha
      | true => rfl
    simp only [Bool.and_eq_true, decide_eq_true_eq] at ha2
    cases question with
    | str s =>
        have hs : s ≠ "" := by simpa [JsVal.truthy] using ha2.1.1
        have hops := checkOptions_none opts2 0 hco
        simp only [meetsPollLimits, Bool.and_eq_true, decide_eq_true_eq, List.all_eq_true]
        refine ⟨⟨⟨⟨hs, ?_⟩, by omega⟩, by omega⟩, ?_⟩
        · have := hb
          simp only [JsVal.strVal] at this ⊢
          omega
        · intro o ho
          obtain ⟨hts, hlen⟩ := hops o ho
          simp only [Bool.and_eq_true] at hts
          cases o with
          | str t =>
              have ht : t ≠ "" := by simpa [JsVal.truthy] using hts.1
              simp only [JsVal.strVal] at hlen
              simp [ht, hlen]
          | undef => exact absurd hts.2 (by simp [JsVal.isStr])
          | num _ => exact absurd hts.2 (by simp [JsVal.isStr])
          | arr _ => exact absurd hts.2 (by simp [JsVal.isStr])
    | undef => exact absurd ha2.1.2 (by simp [JsVal.isStr])
    | num _ => exact absurd ha2.1.2 (by simp [JsVal.isStr])
    | arr _ => exact absurd ha2.1.2 (by simp [JsVal.isStr])
  · exact absurd h (by simp)

/-- Claim C8: a poll creation request is accepted only when the question is
a non-empty string of at most 500 characters and the options are 2 to 10
entries, each a non-empty string of at most 200 characters; a request
outside those limits is answered with a validation error and creates no
poll. -/
theorem poll_creation_limits (db : DB) (freshId : String) (now : ℤ)
    (question options : JsVal) :
    (∀ q opts, validatePollData question options = .ok (q, opts) →
        meetsPollLimits question options = true) ∧
    (meetsPollLimits question options = false →
        isBadRequest (createPollRoute db freshId now question options).1 = true ∧
        (createPollRoute db freshId now question options).2 = db) := by
  constructor
  · intro q opts h
    exact validatePollData_ok_limits question options q opts h
  · intro hm
    unfold createPollRoute
    cases hv : validatePollData question options with
    | error e => exact ⟨rfl, rfl⟩
    | ok pair =>
        obtain ⟨q, opts⟩ := pair
        exact absurd (validatePollData_ok_limits question options q opts hv) (by simp [hm])

/-- Witness for C8: a one-option request misses the limits, is answered
with a validation error, and leaves the store unchanged. -/
theorem poll_creation_limits_witness :
    meetsPollLimits (.str "Q?") (.arr [.str "OnlyOne"]) = false ∧
    isBadRequest (createPollRoute db0 "A1B2C3D4" 0 (.str "Q?") (.arr [.str "OnlyOne"])).1 = true ∧
    (createPollRoute db0 "A1B2C3D4" 0 (.str "Q?") (.arr [.str "OnlyOne"])).2 = db0 :=
  ⟨by decide,
   (poll_creation_limits db0 "A1B2C3D4" 0 (.str "Q?") (.arr [.str "OnlyOne"])).2 (by decide)⟩

/-- Every vote row references some existing poll row. -/
def votesHavePolls (db : DB) : Prop :=
  ∀ v ∈ db.votes, ∃ p ∈ db.polls, p.id = v.poll_id

/-- Every poll row's vote_count column equals the number of stored vote
rows of that poll. -/
def voteCountOk (db : DB) : Prop :=
  ∀ p ∈ db.polls, p.vote_count = (db.votes.filter (fun v => v.poll_id == p.id)).length

lemma filter_append_single (l : List VoteRow) (w : VoteRow) (q : String) :
    ((l ++ [w]).filter (fun v => v.poll_id == q)).length =
      (l.filter (fun v => v.poll_id == q)).length + (if w.poll_id = q then 1 else 0) := by
  rw [List.filter_append, List.length_append]
  by_cases h : w.poll_id = q <;> simp [h]

lemma addVote_preserves_inv (db : DB) (pid : String) (oi : ℚ) (ip fp : String) (t : ℤ)
    (hex : ∃ p ∈ db.polls, p.id = pid)
    (h1 : votesHavePolls db) (h2 : voteCountOk db) :
    votesHavePolls (addVote db pid oi ip fp t) ∧ voteCountOk (addVote db pid oi ip fp t) := by
  constructor
  · intro v hv
    unfold addVote at hv ⊢
    simp only [List.mem_append, List.mem_singleton] at hv
    cases hv with
    | inl hv =>
        obtain ⟨p, hp, hid⟩ := h1 v hv
        refine ⟨if p.id == pid then { p with vote_count := p.vote_count + 1 } else p,
          List.mem_map_of_mem _ hp, ?_⟩
        by_cases h : (p.id == pid) = true
        · rw [if_pos h]; exact hid
        · rw [if_neg h]; exact hid
    | inr hv =>
        obtain ⟨p, hp, hid⟩ := hex
        refine ⟨if p.id == pid then { p with vote_count := p.vote_count + 1 } else p,
          List.mem_map_of_mem _ hp, ?_⟩
        have h : (p.id == pid) = true := by simp [hid]
        rw [if_pos h, hv]
        exact hid
  · intro p2 hp2
    unfold addVote at hp2 ⊢
    dsimp only at hp2 ⊢
    simp only [List.mem_map] at hp2
    obtain ⟨p, hp, rfl⟩ := hp2
    have hbase := h2 p hp
    by_cases h : (p.id == pid) = true
    · have hpe : p.id = pid := by simpa using h
      rw [if_pos h]
      dsimp only
      rw [filter_append_single, if_pos hpe.symm]
      omega
    · have hpe : p.id ≠ pid := by simpa using h
      rw [if_neg h]
      rw [filter_append_single, if_neg (fun hc => hpe hc.symm)]
      omega

lemma createPollRoute_preserves_inv (db : DB) (freshId : String) (now : ℤ)
    (question options : JsVal) (h1 : votesHavePolls db) (h2 : voteCountOk db) :
    votesHavePolls (createPollRoute db freshId now question options).2 ∧
    voteCountOk (createPollRoute db freshId now question options).2 := by
  unfold createPollRoute
  cases hv : validatePollData question options with
  | error e => exact ⟨h1, h2⟩
  | ok pair =>
      obtain ⟨q, opts⟩ := pair
      by_cases hdup : (db.polls.any (fun p => p.id == freshId)) = true
      · simp only [hdup, if_true]
        exact ⟨h1, h2⟩
      · simp only [hdup, if_false]
        constructor
        · intro v hv2
          obtain ⟨p, hp, hid⟩ := h1 v hv2
          exact ⟨p, List.mem_append_left _ hp, hid⟩
        · intro p2 hp2
          rcases List.mem_append.mp hp2 with hp | hp
          · exact h2 p2 hp
          · simp only [List.mem_singleton] at hp
            subst hp
            simp only
            symm
            rw [List.length_eq_zero]
            apply List.filter_eq_nil_iff.mpr
            intro v hv2
            obtain ⟨p, hp3, hid⟩ := h1 v hv2
            intro hcon
            apply hdup
            rw [List.any_eq_true]
            refine ⟨p, hp3, ?_⟩
            have : v.poll_id = freshId := by simpa using hcon
            simp [hid, this]

lemma voteRoute_preserves_inv (db : DB) (body : VoteReqBody) (meta : HttpMeta) (now : ℤ)
    (h1 : votesHavePolls db) (h2 : voteCountOk db) :
    votesHavePolls (voteRoute db body meta now).2 ∧
    voteCountOk (voteRoute db body meta now).2 := by
  unfold voteRoute
  split
  · exact ⟨h1, h2⟩
  split
  · exact ⟨h1, h2⟩
  split
  · exact ⟨h1, h2⟩
  split
  · exact ⟨h1, h2⟩
  rename_i poll hpoll
  split
  · exact ⟨h1, h2⟩
  split
  · exact ⟨h1, h2⟩
  split
  · exact ⟨h1, h2⟩
  split
  · exact ⟨h1, h2⟩
  have hex : ∃ p ∈ db.polls, p.id = body.pollId.strVal := by
    unfold getPoll at hpoll
    cases hf : findPollRow db body.pollId.strVal with
    | none => rw [hf] at hpoll; exact absurd hpoll (by simp)
    | some p =>
        unfold findPollRow at hf
        refine ⟨p, List.mem_of_find?_eq_some hf, ?_⟩
        have := List.find?_some hf
        simpa using this
  split
  · exact addVote_preserves_inv db body.pollId.strVal body.optionIndex.numVal
      (getClientIp meta) body.fingerprint.strVal now hex h1 h2
  · exact addVote_preserves_inv db body.pollId.strVal body.optionIndex.numVal
      (getClientIp meta) body.fingerprint.strVal now hex h1 h2

lemma reachable_inv (db : DB) (h : Reachable db) : votesHavePolls db ∧ voteCountOk db := by
  induction h with
  | empty =>
      constructor
      · intro v hv; cases hv
      · intro p hp; cases hp
  | create db2 freshId now question options _ ih =>
      exact createPollRoute_preserves_inv db2 freshId now question options ih.1 ih.2
  | vote db2 body meta now _ ih =>
      exact voteRoute_preserves_inv db2 body meta now ih.1 ih.2

/-- Claim C10: in every reachable store state, each poll row's vote_count
column equals the number of vote rows stored for that poll — addVote's
transaction (insert plus increment, one synchronous step) and poll creation
both preserve the equality. -/
theorem vote_count_matches_vote_rows (db : DB) (h : Reachable db) :
    ∀ p ∈ db.polls, p.vote_count = (db.votes.filter (fun v => v.poll_id == p.id)).length :=
  (reachable_inv db h).2

/-- Witness for C10: in the reachable one-vote state the poll row's
vote_count, 1, equals the number of stored vote rows for it. -/
theorem vote_count_matches_vote_rows_witness :
    (dbAfterA.polls.headD
        { id := "", question := "", options := [], created_at := 0, vote_count := 0 }).vote_count =
      (dbAfterA.votes.filter (fun v => v.poll_id ==
        (dbAfterA.polls.headD
          { id := "", question := "", options := [], created_at := 0,
            vote_count := 0 }).id)).length :=
  vote_count_matches_vote_rows dbAfterA
    (Reachable.vote dbWithPoll bodyA metaA 100
      (Reachable.create db0 "A1B2C3D4" 0 (.str "Favorite color?")
        (.arr [.str "Red", .str "Blue"]) Reachable.empty))
    _ (by decide)
